import Mathlib

/-!
Shallow embedding of `openassessment/xblock/staff_info_mixin.py`:
the staff-oversight layer of the open-response-assessment block.

Pure data values model the Python dicts; collaborator APIs that the
mixin calls (submission store, peer / self / ai assessment APIs, file
upload) are modelled as an explicit environment of functions, and the
handlers additionally return a trace of the backend calls they make, so
that claims of the form "no backend call is made" are statable.
Localization (the xblock underscore translation helper) is modelled as
the identity on strings, per the spec it is host machinery out of scope.
-/

/-- Identity key for per-student operations: the dict built by
`get_student_item_dict` with keys course_id, item_id, student_id. -/
structure StudentItem where
  course_id : String
  item_id : String
  student_id : String
deriving DecidableEq, Repr

/-- A submission dict as returned by the submission store. The Python
answer dict may or may not contain a file_key entry, modelled by the
Option; image_url is the key that `get_student_info_path_and_context`
may add to the dict. -/
structure Submission where
  uuid : String
  answer_file_key : Option String
  image_url : Option String
deriving DecidableEq, Repr

/-- One rubric criterion dict from `rubric_criteria_with_labels`;
total_value is the key the student-info path backfills, absent (none)
until then. -/
structure Criterion where
  name : String
  label : String
  total_value : Option Nat
deriving DecidableEq, Repr

/-- An assessment record returned by one of the assessment strategy
APIs; its payload is opaque at this layer. -/
structure Assessment where
  data : String
deriving DecidableEq, Repr

/-- The example-based-assessment module configuration, as found by
`get_assessment_module` when it is configured for the item. -/
structure ExampleBasedConfig where
  algorithm_id : String
  examples : List String
deriving DecidableEq, Repr

/-- Result of `create_rubric_dict(prompt, criteria)`: the rubric in
dict form, passed to the ai and peer APIs. -/
structure RubricDict where
  prompt : String
  criteria : List Criterion
deriving DecidableEq, Repr

/-- Modelled from the spec: `create_rubric_dict` from
`data_conversion.py` (repository code outside src/) packages the prompt
and the criteria list into one rubric dict. -/
def create_rubric_dict (prompt : String) (criteria : List Criterion) : RubricDict :=
  { prompt := prompt, criteria := criteria }

/-- The training-example set after `convert_training_examples_list_to_dict`. -/
structure TrainingExamplesDict where
  examples : List String
deriving DecidableEq, Repr

/-- Modelled from the spec: `convert_training_examples_list_to_dict`
from `data_conversion.py` (repository code outside src/) repackages the
configured example list into the dict form the training API takes; an
opaque repackaging at this layer. -/
def convert_training_examples_list_to_dict (examples : List String) : TrainingExamplesDict :=
  { examples := examples }

/-- Typed error raised by the file-upload collaborator. -/
structure FileUploadError where
  msg : String
deriving DecidableEq, Repr

/-- Typed error raised by the ai (example-based assessment) collaborator;
msg is its string rendering, what Python format embeds. -/
structure AIError where
  msg : String
deriving DecidableEq, Repr

/-- Metadata about a trained classifier set, as returned by
`ai_api.get_classifier_set_info`; opaque at this layer. -/
structure ClassifierSetInfo where
  info : String
deriving DecidableEq, Repr

/-- A date in the sense of `resolve_dates`. Modelled from the spec:
the deadline resolver yields sentinel distant-past / distant-future
values meaning unbounded, so the date domain has the two sentinels as
its extremal elements and ordinary timestamps between them. -/
inductive Date where
  | distantPast
  | finite (t : Int)
  | distantFuture
deriving DecidableEq, Repr

/-- Strict order on dates: distantPast below every other date,
distantFuture above every other date, timestamps ordered as integers. -/
def Date.lt : Date → Date → Bool
  | .distantPast, .distantPast => false
  | .distantPast, _ => true
  | .finite _, .distantFuture => true
  | .finite s, .finite t => decide (s < t)
  | _, _ => false

/-- The DISTANT_PAST sentinel from `resolve_dates`. -/
def DISTANT_PAST : Date := Date.distantPast

/-- The DISTANT_FUTURE sentinel from `resolve_dates`. -/
def DISTANT_FUTURE : Date := Date.distantFuture

/-- The 4-tuple returned by the `is_closed` xblock method:
(whether the step is closed, the reason, the start date, the due date). -/
structure ClosedInfo where
  closed : Bool
  reason : Option String
  start : Date
  due : Date
deriving DecidableEq, Repr

/-- The dict returned by `peer_api.get_data_for_override_score`,
opaque at this layer. -/
abbrev Scores := List (String × Nat)

/-- The result dict returned by `peer_api.score_override`. -/
structure OverrideResult where
  success : Bool
  msg : String
deriving DecidableEq, Repr

/-- The collaborator APIs the mixin calls, as an explicit environment.
Fields named after the Python callables. The four per-submission
assessment fetchers are given as stores keyed by a real submission uuid;
the api entry points over an optional uuid are defined below them,
modelled from the spec. -/
structure Env where
  get_submissions : StudentItem → Nat → List Submission
  get_download_url : String → Except FileUploadError String
  peer_assessments_of : String → List Assessment
  submitted_assessments_of : String → List Assessment
  self_assessment_of : String → Option Assessment
  ai_latest_assessment_of : String → Option Assessment
  get_data_for_override_score : Option String → StudentItem → RubricDict → Scores
  get_rubric_max_scores : Option String → String → Nat
  train_classifiers : RubricDict → TrainingExamplesDict → String → String → String → Except AIError String
  reschedule_unfinished_tasks_api : String → String → String → Except AIError Unit
  get_classifier_set_info : RubricDict → String → String → String → ClassifierSetInfo
  score_override : StudentItem → Nat → Nat → OverrideResult

/-- Modelled from the spec: `peer_api.get_assessments` (repository code
outside src/) returns the full list of peer assessments received
against the given submission; with no submission there are none. -/
def peer_api_get_assessments (env : Env) : Option String → List Assessment
  | none => []
  | some uuid => env.peer_assessments_of uuid

/-- Modelled from the spec: `peer_api.get_submitted_assessments`
(repository code outside src/) returns the assessments the student
authored against the given submission, unscored included; with no
submission there are none. -/
def peer_api_get_submitted_assessments (env : Env) : Option String → List Assessment
  | none => []
  | some uuid => env.submitted_assessments_of uuid

/-- Modelled from the spec: `self_api.get_assessment` (repository code
outside src/) returns at most one self assessment for the given
submission; with no submission there is none. -/
def self_api_get_assessment (env : Env) : Option String → Option Assessment
  | none => none
  | some uuid => env.self_assessment_of uuid

/-- Modelled from the spec: `ai_api.get_latest_assessment` (repository
code outside src/) returns the latest AI-graded result for the given
submission, if any; with no submission there is none. -/
def ai_api_get_latest_assessment (env : Env) : Option String → Option Assessment
  | none => none
  | some uuid => env.ai_latest_assessment_of uuid

/-- The state of the xblock the mixin methods read. Fields model the
attributes and the methods of the other mixins the source calls
(get_student_item_dict, is_closed, get_assessment_module,
get_workflow_status_counts live outside src/ and are modelled from the
spec as request-scoped values of the block). example_based_assessment
is the result of get_assessment_module for that step, none when not
configured. -/
structure XBlock where
  is_admin : Bool
  is_course_staff : Bool
  in_studio_preview : Bool
  assessment_steps : List String
  prompt : String
  rubric_criteria_with_labels : List Criterion
  allow_latex : Bool
  example_based_assessment : Option ExampleBasedConfig
  get_student_item_dict : StudentItem
  is_closed : String → Bool → ClosedInfo
  workflow_status_counts : List (String × Nat) × Nat

/-- The fixed permission-error message table of `require_global_admin`,
keyed by the error key of the decorated handler. -/
def adminPermissionErrors : String → String
  | "SCHEDULE_TRAINING" => "You do not have permission to schedule training"
  | "RESCHEDULE_TASKS" => "You do not have permission to reschedule tasks."
  | _ => ""

/-- The fixed permission-error message table of `require_course_staff`,
keyed by the error key of the decorated handler. -/
def staffPermissionErrors : String → String
  | "STAFF_INFO" => "You do not have permission to access staff information"
  | "STUDENT_INFO" => "You do not have permission to access student information."
  | _ => ""

/-- One backend call made by a handler body, recorded in the trace the
embedded handlers return next to their result. -/
inductive BackendCall where
  | train_classifiers (rubric : RubricDict) (examples : TrainingExamplesDict)
      (course_id item_id algorithm_id : String)
  | reschedule_tasks (course_id item_id task_type : String)
  | score_override_call (item : StudentItem) (points_override points_possible : Nat)
deriving DecidableEq, Repr

/-- The JSON dict result of the two global-admin handlers: success flag,
optional workflow uuid (a key only schedule_training on success adds),
and a message. -/
structure AdminResult where
  success : Bool
  workflow_uuid : Option String := none
  msg : String
deriving DecidableEq, Repr

/-- The `require_global_admin` decorator: denies with the fixed message
for the key, without running the body, unless the caller is a global
admin outside studio preview. -/
def require_global_admin (error_key : String) (xb : XBlock)
    (func : Unit → AdminResult × List BackendCall) : AdminResult × List BackendCall :=
  if !xb.is_admin || xb.in_studio_preview then
    ({ success := false, msg := adminPermissionErrors error_key }, [])
  else func ()

/-- The `require_course_staff` decorator: renders the fixed error for
the key, without running the body, unless the caller is course staff
outside studio preview. renderError models the render_error method of
the block for the result type at hand. -/
def require_course_staff {α : Type} (error_key : String) (xb : XBlock)
    (renderError : String → α) (func : Unit → α) : α :=
  if !xb.is_course_staff || xb.in_studio_preview then
    renderError (staffPermissionErrors error_key)
  else func ()

/-- The student_item dict inside `get_student_info_path_and_context`:
the student_id key is overwritten only when a student id was supplied. -/
def si_student_item (xb : XBlock) (student_id : String) : StudentItem :=
  if student_id ≠ "" then { xb.get_student_item_dict with student_id := student_id }
  else xb.get_student_item_dict

/-- The submission fetched by `get_student_info_path_and_context`: with
a student id, the head of the most-recent-first list of capacity 1 from
the submission store; with no student id, none. -/
def si_raw_submission (env : Env) (xb : XBlock) (student_id : String) : Option Submission :=
  if student_id ≠ "" then
    match env.get_submissions (si_student_item xb student_id) 1 with
    | [] => none
    | s :: _ => some s
  else none

/-- The file-url step of `get_student_info_path_and_context`: when the
answer carries a file_key, try to resolve a download url and set
image_url on success; on a FileUploadError only log and continue, the
submission dict unchanged. -/
def with_image_url (env : Env) (s : Submission) : Submission :=
  match s.answer_file_key with
  | some key =>
    match env.get_download_url key with
    | .ok url => { s with image_url := some url }
    | .error _ => s
  | none => s

/-- The submission value placed in the student-info context. -/
def si_submission (env : Env) (xb : XBlock) (student_id : String) : Option Submission :=
  (si_raw_submission env xb student_id).map (with_image_url env)

/-- The submission_uuid local of `get_student_info_path_and_context`:
set from the fetched submission, none when there is none. -/
def si_submission_uuid (env : Env) (xb : XBlock) (student_id : String) : Option String :=
  (si_raw_submission env xb student_id).map Submission.uuid

/-- peer_assessments of the student-info context: fetched only when the
peer-assessment step is configured. -/
def si_peer_assessments (env : Env) (xb : XBlock) (student_id : String) : List Assessment :=
  if "peer-assessment" ∈ xb.assessment_steps then
    peer_api_get_assessments env (si_submission_uuid env xb student_id)
  else []

/-- submitted_assessments of the student-info context: fetched only when
the peer-assessment step is configured (scored_only false). -/
def si_submitted_assessments (env : Env) (xb : XBlock) (student_id : String) : List Assessment :=
  if "peer-assessment" ∈ xb.assessment_steps then
    peer_api_get_submitted_assessments env (si_submission_uuid env xb student_id)
  else []

/-- scores of the student-info context: the override-score data bundle,
fetched only when the peer-assessment step is configured; the empty dict
otherwise. -/
def si_scores (env : Env) (xb : XBlock) (student_id : String) : Scores :=
  if "peer-assessment" ∈ xb.assessment_steps then
    env.get_data_for_override_score (si_submission_uuid env xb student_id)
      (si_student_item xb student_id)
      (create_rubric_dict xb.prompt xb.rubric_criteria_with_labels)
  else []

/-- problem_closed of the student-info context: whether the
peer-assessment step is closed for a student, set only when that step is
configured; None otherwise. -/
def si_problem_closed (xb : XBlock) : Option Bool :=
  if "peer-assessment" ∈ xb.assessment_steps then
    some (xb.is_closed "peer-assessment" false).closed
  else none

/-- self_assessment of the student-info context: fetched only when the
self-assessment step is configured. -/
def si_self_assessment (env : Env) (xb : XBlock) (student_id : String) : Option Assessment :=
  if "self-assessment" ∈ xb.assessment_steps then
    self_api_get_assessment env (si_submission_uuid env xb student_id)
  else none

/-- example_based_assessment of the student-info context: fetched only
when the example-based-assessment step is configured. -/
def si_example_based_assessment (env : Env) (xb : XBlock) (student_id : String) : Option Assessment :=
  if "example-based-assessment" ∈ xb.assessment_steps then
    ai_api_get_latest_assessment env (si_submission_uuid env xb student_id)
  else none

/-- The truthiness test guarding the total_value backfill: some
assessment exists across the three strategies. -/
def si_any_assessment (env : Env) (xb : XBlock) (student_id : String) : Bool :=
  !(si_peer_assessments env xb student_id).isEmpty
  || (si_self_assessment env xb student_id).isSome
  || (si_example_based_assessment env xb student_id).isSome

/-- rubric_criteria of the student-info context: a deep copy (a value
copy here) of rubric_criteria_with_labels; when some assessment exists,
each criterion of the copy gets total_value set to its max score from
the peer rubric max-score table. -/
def si_rubric_criteria (env : Env) (xb : XBlock) (student_id : String) : List Criterion :=
  if si_any_assessment env xb student_id then
    xb.rubric_criteria_with_labels.map (fun c =>
      let mx := env.get_rubric_max_scores (si_submission_uuid env xb student_id) c.name
      { c with total_value := some mx })
  else xb.rubric_criteria_with_labels

/-- The template context dict built by `get_student_info_path_and_context`. -/
structure StudentInfoContext where
  submission : Option Submission
  peer_assessments : List Assessment
  submitted_assessments : List Assessment
  self_assessment : Option Assessment
  example_based_assessment : Option Assessment
  rubric_criteria : List Criterion
  scores : Scores
  problem_closed : Option Bool
deriving DecidableEq, Repr

/-- The outcome of `get_student_info_path_and_context`: the template
path, the context, and the xblock state after the call. Python mutation
is modelled by returning the post-call state: the backfill writes into
the deep copy placed in the context, and the student_item and submission
dicts mutated are request-fresh collaborator values, so the block state
is returned unchanged. -/
structure StudentInfoResult where
  path : String
  context : StudentInfoContext
  xblock_after : XBlock

/-- Embedding of `get_student_info_path_and_context`. -/
def get_student_info_path_and_context (env : Env) (xb : XBlock) (student_id : String) :
    StudentInfoResult :=
  { path := "openassessmentblock/staff_debug/student_info.html"
    context :=
      { submission := si_submission env xb student_id
        peer_assessments := si_peer_assessments env xb student_id
        submitted_assessments := si_submitted_assessments env xb student_id
        self_assessment := si_self_assessment env xb student_id
        example_based_assessment := si_example_based_assessment env xb student_id
        rubric_criteria := si_rubric_criteria env xb student_id
        scores := si_scores env xb student_id
        problem_closed := si_problem_closed xb }
    xblock_after := xb }

/-- One entry of the step_dates list of the staff context: sentinel
start and due dates are presented as absent. -/
structure StepDate where
  step : String
  start : Option Date
  due : Option Date
deriving DecidableEq, Repr

/-- Builds one step_dates entry from the dates a student would see:
start only when strictly after DISTANT_PAST, due only when strictly
before DISTANT_FUTURE. -/
def mk_step_date (xb : XBlock) (step : String) : StepDate :=
  { step := step
    start :=
      if Date.lt DISTANT_PAST (xb.is_closed step false).start
      then some (xb.is_closed step false).start else none
    due :=
      if Date.lt (xb.is_closed step false).due DISTANT_FUTURE
      then some (xb.is_closed step false).due else none }

/-- The template context dict built by `get_staff_path_and_context`;
classifierset is none exactly when the Python dict lacks the key. -/
structure StaffContext where
  item_id : String
  status_counts : List (String × Nat)
  num_submissions : Nat
  display_schedule_training : Bool
  display_reschedule_unfinished_tasks : Bool
  classifierset : Option ClassifierSetInfo
  step_dates : List StepDate
  allow_latex : Bool
deriving DecidableEq, Repr

/-- The shared guard of the two ai staff buttons: global admin, an
example-based-assessment module configured, and not in studio preview. -/
def display_ai_staff_info (xb : XBlock) : Bool :=
  xb.is_admin && xb.example_based_assessment.isSome && !xb.in_studio_preview

/-- Embedding of `get_staff_path_and_context`. -/
def get_staff_path_and_context (env : Env) (xb : XBlock) : String × StaffContext :=
  ("openassessmentblock/staff_debug/staff_debug.html",
    { item_id := xb.get_student_item_dict.item_id
      status_counts := xb.workflow_status_counts.1
      num_submissions := xb.workflow_status_counts.2
      display_schedule_training := display_ai_staff_info xb
      display_reschedule_unfinished_tasks := display_ai_staff_info xb
      classifierset :=
        if display_ai_staff_info xb then
          match xb.example_based_assessment with
          | some a =>
            some (env.get_classifier_set_info
              (create_rubric_dict xb.prompt xb.rubric_criteria_with_labels)
              a.algorithm_id
              xb.get_student_item_dict.course_id
              xb.get_student_item_dict.item_id)
          | none => none
        else none
      step_dates :=
        (("submission" :: xb.assessment_steps).filter
          (fun step => step ≠ "example-based-assessment")).map (mk_step_date xb)
      allow_latex := xb.allow_latex })

/-- The body of the `schedule_training` handler, after the permission
gate: with no example-based-assessment configuration, success false and
the not-configured message, no backend call; otherwise one call to
`ai_api.train_classifiers`, its success or AIError converted into the
result dict. -/
def schedule_training_body (env : Env) (xb : XBlock) : AdminResult × List BackendCall :=
  match xb.example_based_assessment with
  | some assessment =>
    let rubric := create_rubric_dict xb.prompt xb.rubric_criteria_with_labels
    let examples := convert_training_examples_list_to_dict assessment.examples
    let course_id := xb.get_student_item_dict.course_id
    let item_id := xb.get_student_item_dict.item_id
    let callRec := BackendCall.train_classifiers rubric examples course_id item_id
      assessment.algorithm_id
    match env.train_classifiers rubric examples course_id item_id assessment.algorithm_id with
    | .ok workflow_uuid =>
      ({ success := true
         workflow_uuid := some workflow_uuid
         msg := "Training scheduled with new Workflow UUID: " ++ workflow_uuid }, [callRec])
    | .error err =>
      ({ success := false
         msg := "An error occurred scheduling classifier training: " ++ err.msg }, [callRec])
  | none =>
    ({ success := false
       msg := "Example Based Assessment is not configured for this location." }, [])

/-- The `schedule_training` handler: the body behind
require_global_admin with the SCHEDULE_TRAINING key. -/
def schedule_training (env : Env) (xb : XBlock) : AdminResult × List BackendCall :=
  require_global_admin "SCHEDULE_TRAINING" xb (fun _ => schedule_training_body env xb)

/-- The body of the `reschedule_unfinished_tasks` handler, after the
permission gate: one call to `ai_api.reschedule_unfinished_tasks` with
task_type grade, its success or AIError converted into the result dict. -/
def reschedule_unfinished_tasks_body (env : Env) (xb : XBlock) :
    AdminResult × List BackendCall :=
  let course_id := xb.get_student_item_dict.course_id
  let item_id := xb.get_student_item_dict.item_id
  let callRec := BackendCall.reschedule_tasks course_id item_id "grade"
  match env.reschedule_unfinished_tasks_api course_id item_id "grade" with
  | .ok _ =>
    ({ success := true
       msg := "All AI tasks associated with this item have been rescheduled successfully." },
     [callRec])
  | .error ex =>
    ({ success := false
       msg := "An error occurred while rescheduling tasks: " ++ ex.msg }, [callRec])

/-- The `reschedule_unfinished_tasks` handler: the body behind
require_global_admin with the RESCHEDULE_TASKS key. -/
def reschedule_unfinished_tasks (env : Env) (xb : XBlock) : AdminResult × List BackendCall :=
  require_global_admin "RESCHEDULE_TASKS" xb (fun _ => reschedule_unfinished_tasks_body env xb)

/-- Response of a render handler over the staff context: either the
rendered permission error or the rendered page. -/
inductive StaffRenderResponse where
  | rendered_error (msg : String)
  | page (path : String) (ctx : StaffContext)
deriving DecidableEq, Repr

/-- The `render_staff_info` handler: the staff panel behind
require_course_staff with the STAFF_INFO key. -/
def render_staff_info (env : Env) (xb : XBlock) : StaffRenderResponse :=
  require_course_staff "STAFF_INFO" xb StaffRenderResponse.rendered_error (fun _ =>
    let pc := get_staff_path_and_context env xb
    StaffRenderResponse.page pc.1 pc.2)

/-- Response of a render handler over the student-info context: either
the rendered permission error or the rendered page. -/
inductive StudentRenderResponse where
  | rendered_error (msg : String)
  | page (path : String) (ctx : StudentInfoContext)
deriving DecidableEq, Repr

/-- The `render_student_info` handler: the student panel behind
require_course_staff with the STUDENT_INFO key; student_id is the
request parameter, empty string when absent. -/
def render_student_info (env : Env) (xb : XBlock) (student_id : String) :
    StudentRenderResponse :=
  require_course_staff "STUDENT_INFO" xb StudentRenderResponse.rendered_error (fun _ =>
    let r := get_student_info_path_and_context env xb student_id
    StudentRenderResponse.page r.path r.context)

/-- The request data dict of the `peer_score_override` handler. -/
structure OverrideData where
  student_id : String
  points_possible : Nat
  points_override : Nat
deriving DecidableEq, Repr

/-- Response of the `peer_score_override` handler: on denial the
decorator renders an error page, otherwise the backend result dict is
returned unmodified. -/
inductive OverrideResponse where
  | rendered_error (msg : String)
  | backend (r : OverrideResult)
deriving DecidableEq, Repr

/-- The `peer_score_override` handler: behind require_course_staff with
the STUDENT_INFO key; builds the student_item dict with the requested
student id and delegates the write to `peer_api.score_override`. -/
def peer_score_override (env : Env) (xb : XBlock) (data : OverrideData) :
    OverrideResponse × List BackendCall :=
  require_course_staff "STUDENT_INFO" xb
    (fun m => (OverrideResponse.rendered_error m, []))
    (fun _ =>
      let student_item := { xb.get_student_item_dict with student_id := data.student_id }
      (OverrideResponse.backend
        (env.score_override student_item data.points_override data.points_possible),
       [BackendCall.score_override_call student_item data.points_override data.points_possible]))

/-- A sample collaborator environment for concrete evaluations: the
submission store holds one submission with a file key, the file store
and the two ai mutation APIs fail, the peer store holds one assessment. -/
def envA : Env :=
  { get_submissions := fun _ _ =>
      [{ uuid := "u1", answer_file_key := some "k1", image_url := none }]
    get_download_url := fun _ => Except.error { msg := "storage down" }
    peer_assessments_of := fun _ => [{ data := "peerA" }]
    submitted_assessments_of := fun _ => [{ data := "ownA" }]
    self_assessment_of := fun _ => some { data := "selfA" }
    ai_latest_assessment_of := fun _ => none
    get_data_for_override_score := fun _ _ _ => [("crit1", 3)]
    get_rubric_max_scores := fun _ _ => 5
    train_classifiers := fun _ _ _ _ _ => Except.error { msg := "train backend down" }
    reschedule_unfinished_tasks_api := fun _ _ _ => Except.error { msg := "grade backend down" }
    get_classifier_set_info := fun _ _ _ _ => { info := "cs1" }
    score_override := fun _ _ _ => { success := true, msg := "ok" } }

/-- A sample xblock state: a global admin who is course staff, outside
studio preview, with peer and self steps and an example-based module
configured. -/
def xbA : XBlock :=
  { is_admin := true
    is_course_staff := true
    in_studio_preview := false
    assessment_steps := ["peer-assessment", "self-assessment"]
    prompt := "p"
    rubric_criteria_with_labels :=
      [{ name := "crit1", label := "Criterion 1", total_value := none }]
    allow_latex := false
    example_based_assessment := some { algorithm_id := "ease", examples := ["ex1"] }
    get_student_item_dict := { course_id := "c1", item_id := "i1", student_id := "staff" }
    is_closed := fun _ _ =>
      { closed := false, reason := none, start := Date.distantPast, due := Date.finite 5 }
    workflow_status_counts := ([("peer-assessment", 6), ("done", 4)], 10) }

/-- The file-url step never changes the submission uuid. -/
theorem with_image_url_uuid (env : Env) (s : Submission) :
    (with_image_url env s).uuid = s.uuid := by
  unfold with_image_url
  rcases hk : s.answer_file_key with _ | key
  · rfl
  · rcases hd : env.get_download_url key with url | e <;> simp [hd]

/-- The uuid of the submission placed in the context is the
submission_uuid the fetch branches use. -/
theorem si_submission_map_uuid (env : Env) (xb : XBlock) (student_id : String) :
    (si_submission env xb student_id).map Submission.uuid
      = si_submission_uuid env xb student_id := by
  unfold si_submission si_submission_uuid
  rcases si_raw_submission env xb student_id with _ | s
  · rfl
  · simp [with_image_url_uuid]

/-- A start date passes the strictly-after-DISTANT_PAST test exactly
when it is not the sentinel. -/
theorem start_presented (d : Date) :
    (if Date.lt DISTANT_PAST d then some d else none)
      = if d = DISTANT_PAST then none else some d := by
  cases d <;> simp [Date.lt, DISTANT_PAST]

/-- A due date passes the strictly-before-DISTANT_FUTURE test exactly
when it is not the sentinel. -/
theorem due_presented (d : Date) :
    (if Date.lt d DISTANT_FUTURE then some d else none)
      = if d = DISTANT_FUTURE then none else some d := by
  cases d <;> simp [Date.lt, DISTANT_FUTURE]

/-- C1: in studio preview every gated operation is denied regardless of
role: both render views return the rendered fixed permission error for
their key, and the three traced handlers return the fixed denial dict
with an empty backend-call trace, for every environment, so no handler
body runs and no backend is reached. -/
theorem preview_mode_denies_every_gated_operation (env : Env) (xb : XBlock)
    (student_id : String) (data : OverrideData)
    (hp : xb.in_studio_preview = true) :
    render_staff_info env xb
      = StaffRenderResponse.rendered_error
          "You do not have permission to access staff information" ∧
    render_student_info env xb student_id
      = StudentRenderResponse.rendered_error
          "You do not have permission to access student information." ∧
    peer_score_override env xb data
      = (OverrideResponse.rendered_error
          "You do not have permission to access student information.", []) ∧
    schedule_training env xb
      = ({ success := false, workflow_uuid := none,
           msg := "You do not have permission to schedule training" }, []) ∧
    reschedule_unfinished_tasks env xb
      = ({ success := false, workflow_uuid := none,
           msg := "You do not have permission to reschedule tasks." }, []) := by
  refine ⟨?_, ?_, ?_, ?_, ?_⟩ <;>
    simp [render_staff_info, render_student_info, peer_score_override, schedule_training,
      reschedule_unfinished_tasks, require_course_staff, require_global_admin, hp,
      staffPermissionErrors, adminPermissionErrors]

/-- C1 witness: the denials at a concrete admin block put in preview. -/
theorem preview_mode_denies_every_gated_operation_witness :
    ({ xbA with in_studio_preview := true } : XBlock).in_studio_preview = true ∧
    (render_staff_info envA { xbA with in_studio_preview := true }
      = StaffRenderResponse.rendered_error
          "You do not have permission to access staff information" ∧
    render_student_info envA { xbA with in_studio_preview := true } "s1"
      = StudentRenderResponse.rendered_error
          "You do not have permission to access student information." ∧
    peer_score_override envA { xbA with in_studio_preview := true }
        { student_id := "s1", points_possible := 10, points_override := 8 }
      = (OverrideResponse.rendered_error
          "You do not have permission to access student information.", []) ∧
    schedule_training envA { xbA with in_studio_preview := true }
      = ({ success := false, workflow_uuid := none,
           msg := "You do not have permission to schedule training" }, []) ∧
    reschedule_unfinished_tasks envA { xbA with in_studio_preview := true }
      = ({ success := false, workflow_uuid := none,
           msg := "You do not have permission to reschedule tasks." }, [])) :=
  ⟨rfl, preview_mode_denies_every_gated_operation envA
    { xbA with in_studio_preview := true } "s1"
    { student_id := "s1", points_possible := 10, points_override := 8 } rfl⟩

/-- C2: schedule_training for an authorized admin with no
example-based-assessment configuration returns success false with the
not-configured message and an empty trace, so the training backend is
never called. -/
theorem schedule_training_not_configured (env : Env) (xb : XBlock)
    (hadmin : xb.is_admin = true) (hprev : xb.in_studio_preview = false)
    (hcfg : xb.example_based_assessment = none) :
    schedule_training env xb
      = ({ success := false, workflow_uuid := none,
           msg := "Example Based Assessment is not configured for this location." }, []) := by
  simp [schedule_training, require_global_admin, hadmin, hprev,
    schedule_training_body, hcfg]

/-- C2 witness: the not-configured outcome at a concrete admin block
with the example-based module removed. -/
theorem schedule_training_not_configured_witness :
    ({ xbA with example_based_assessment := none } : XBlock).is_admin = true ∧
    ({ xbA with example_based_assessment := none } : XBlock).in_studio_preview = false ∧
    ({ xbA with example_based_assessment := none } : XBlock).example_based_assessment = none ∧
    schedule_training envA { xbA with example_based_assessment := none }
      = ({ success := false, workflow_uuid := none,
           msg := "Example Based Assessment is not configured for this location." }, []) :=
  ⟨rfl, rfl, rfl,
    schedule_training_not_configured envA { xbA with example_based_assessment := none }
      rfl rfl rfl⟩

/-- C3: with an empty student identifier the student-info context has no
submission and all four assessment fields empty, for every environment
and every configured step set. -/
theorem empty_student_id_yields_empty_context (env : Env) (xb : XBlock) :
    (get_student_info_path_and_context env xb "").context.submission = none ∧
    (get_student_info_path_and_context env xb "").context.peer_assessments = [] ∧
    (get_student_info_path_and_context env xb "").context.submitted_assessments = [] ∧
    (get_student_info_path_and_context env xb "").context.self_assessment = none ∧
    (get_student_info_path_and_context env xb "").context.example_based_assessment = none := by
  refine ⟨?_, ?_, ?_, ?_, ?_⟩ <;>
    simp [get_student_info_path_and_context, si_submission, si_raw_submission,
      si_peer_assessments, si_submitted_assessments, si_self_assessment,
      si_example_based_assessment, si_submission_uuid, peer_api_get_assessments,
      peer_api_get_submitted_assessments, self_api_get_assessment,
      ai_api_get_latest_assessment]

/-- C9: building the student-info context leaves the block state, in
particular its stored rubric criteria, unchanged: the backfill writes
only into the value copy placed in the context. -/
theorem student_info_does_not_mutate_rubric (env : Env) (xb : XBlock) (student_id : String) :
    (get_student_info_path_and_context env xb student_id).xblock_after = xb ∧
    (get_student_info_path_and_context env xb student_id).xblock_after.rubric_criteria_with_labels
      = xb.rubric_criteria_with_labels :=
  ⟨rfl, rfl⟩

/-- C10: the two ai staff-button flags of the staff context always
agree, equal the admin-and-configured-and-not-preview guard, and the
classifierset key is present exactly when that shared flag is true. -/
theorem display_flags_agree_and_gate_classifierset (env : Env) (xb : XBlock) :
    (get_staff_path_and_context env xb).2.display_schedule_training
      = (get_staff_path_and_context env xb).2.display_reschedule_unfinished_tasks ∧
    (get_staff_path_and_context env xb).2.display_schedule_training
      = (xb.is_admin && xb.example_based_assessment.isSome && !xb.in_studio_preview) ∧
    (get_staff_path_and_context env xb).2.classifierset.isSome
      = (get_staff_path_and_context env xb).2.display_schedule_training := by
  refine ⟨rfl, rfl, ?_⟩
  rcases hcfg : xb.example_based_assessment with _ | a <;>
    simp [get_staff_path_and_context, display_ai_staff_info, hcfg] <;>
    by_cases ha : xb.is_admin = true <;>
    by_cases hp : xb.in_studio_preview = true <;>
    simp [ha, hp]

/-- C5: when the backend raises an AIError, both schedule_training and
reschedule_unfinished_tasks convert it into a success-false result whose
message embeds the error message; the handler stays total (no exception
escapes) and the trace holds exactly the one backend call (no retry). -/
theorem backend_errors_reported_not_raised (env : Env) (xb : XBlock)
    (cfg : ExampleBasedConfig) (errT errR : AIError)
    (hadmin : xb.is_admin = true) (hprev : xb.in_studio_preview = false)
    (hcfg : xb.example_based_assessment = some cfg)
    (htrain : env.train_classifiers
        (create_rubric_dict xb.prompt xb.rubric_criteria_with_labels)
        (convert_training_examples_list_to_dict cfg.examples)
        xb.get_student_item_dict.course_id xb.get_student_item_dict.item_id
        cfg.algorithm_id = Except.error errT)
    (hres : env.reschedule_unfinished_tasks_api
        xb.get_student_item_dict.course_id xb.get_student_item_dict.item_id "grade"
        = Except.error errR) :
    schedule_training env xb
      = ({ success := false, workflow_uuid := none,
           msg := "An error occurred scheduling classifier training: " ++ errT.msg },
         [BackendCall.train_classifiers
            (create_rubric_dict xb.prompt xb.rubric_criteria_with_labels)
            (convert_training_examples_list_to_dict cfg.examples)
            xb.get_student_item_dict.course_id xb.get_student_item_dict.item_id
            cfg.algorithm_id]) ∧
    reschedule_unfinished_tasks env xb
      = ({ success := false, workflow_uuid := none,
           msg := "An error occurred while rescheduling tasks: " ++ errR.msg },
         [BackendCall.reschedule_tasks
            xb.get_student_item_dict.course_id xb.get_student_item_dict.item_id "grade"]) := by
  constructor
  · simp [schedule_training, require_global_admin, hadmin, hprev,
      schedule_training_body, hcfg, htrain]
  · simp [reschedule_unfinished_tasks, require_global_admin, hadmin, hprev,
      reschedule_unfinished_tasks_body, hres]

/-- C5 witness: the converted failures at the sample block over the
sample environment whose two ai mutation APIs error. -/
theorem backend_errors_reported_not_raised_witness :
    xbA.is_admin = true ∧ xbA.in_studio_preview = false ∧
    xbA.example_based_assessment = some { algorithm_id := "ease", examples := ["ex1"] } ∧
    envA.train_classifiers
        (create_rubric_dict xbA.prompt xbA.rubric_criteria_with_labels)
        (convert_training_examples_list_to_dict ["ex1"])
        xbA.get_student_item_dict.course_id xbA.get_student_item_dict.item_id
        "ease" = Except.error { msg := "train backend down" } ∧
    envA.reschedule_unfinished_tasks_api
        xbA.get_student_item_dict.course_id xbA.get_student_item_dict.item_id "grade"
        = Except.error { msg := "grade backend down" } ∧
    (schedule_training envA xbA
      = ({ success := false, workflow_uuid := none,
           msg := "An error occurred scheduling classifier training: " ++ "train backend down" },
         [BackendCall.train_classifiers
            (create_rubric_dict xbA.prompt xbA.rubric_criteria_with_labels)
            (convert_training_examples_list_to_dict ["ex1"])
            xbA.get_student_item_dict.course_id xbA.get_student_item_dict.item_id
            "ease"]) ∧
    reschedule_unfinished_tasks envA xbA
      = ({ success := false, workflow_uuid := none,
           msg := "An error occurred while rescheduling tasks: " ++ "grade backend down" },
         [BackendCall.reschedule_tasks
            xbA.get_student_item_dict.course_id xbA.get_student_item_dict.item_id "grade"])) :=
  ⟨rfl, rfl, rfl, rfl, rfl,
    backend_errors_reported_not_raised envA xbA
      { algorithm_id := "ease", examples := ["ex1"] }
      { msg := "train backend down" } { msg := "grade backend down" }
      rfl rfl rfl rfl rfl⟩

/-- C6: any reschedule call that reaches the backend from the
reschedule_unfinished_tasks handler carries task_type grade, for every
environment, block state and course or item pair. -/
theorem reschedule_unfinished_tasks_always_grade (env : Env) (xb : XBlock)
    (c i t : String)
    (h : BackendCall.reschedule_tasks c i t ∈ (reschedule_unfinished_tasks env xb).2) :
    t = "grade" := by
  simp only [reschedule_unfinished_tasks, require_global_admin] at h
  by_cases hd : (!xb.is_admin || xb.in_studio_preview) = true
  · rw [if_pos hd] at h
    simp at h
  · rw [if_neg hd] at h
    simp only [reschedule_unfinished_tasks_body] at h
    rcases hr : env.reschedule_unfinished_tasks_api xb.get_student_item_dict.course_id
        xb.get_student_item_dict.item_id "grade" with _ | ex <;>
      simp [hr] at h <;> exact h.2.2

/-- C6 witness: the one backend call of a concrete invocation carries
task_type grade. -/
theorem reschedule_unfinished_tasks_always_grade_witness :
    BackendCall.reschedule_tasks "c1" "i1" "grade"
        ∈ (reschedule_unfinished_tasks envA xbA).2 ∧
    "grade" = "grade" :=
  ⟨by decide,
   reschedule_unfinished_tasks_always_grade envA xbA "c1" "i1" "grade" (by decide)⟩

/-- C7: every entry of the staff-panel step_dates list presents a start
date equal to the distant-past sentinel as absent and a due date equal
to the distant-future sentinel as absent, and presents any other date
as-is. -/
theorem step_dates_sentinel_presentation (env : Env) (xb : XBlock) (e : StepDate)
    (he : e ∈ (get_staff_path_and_context env xb).2.step_dates) :
    e.start = (if (xb.is_closed e.step false).start = DISTANT_PAST then none
               else some (xb.is_closed e.step false).start) ∧
    e.due = (if (xb.is_closed e.step false).due = DISTANT_FUTURE then none
             else some (xb.is_closed e.step false).due) := by
  simp only [get_staff_path_and_context, List.mem_map] at he
  rcases he with ⟨step, hmem, rfl⟩
  exact ⟨start_presented _, due_presented _⟩

/-- C7 witness: at a concrete block whose submission step has a
distant-past start and a finite due, the entry presents start as absent
and due as-is. -/
theorem step_dates_sentinel_presentation_witness :
    (({ step := "submission", start := none, due := some (Date.finite 5) } : StepDate)
        ∈ (get_staff_path_and_context envA xbA).2.step_dates) ∧
    (({ step := "submission", start := none, due := some (Date.finite 5) } : StepDate).start
        = (if (xbA.is_closed "submission" false).start = DISTANT_PAST then none
           else some (xbA.is_closed "submission" false).start) ∧
     ({ step := "submission", start := none, due := some (Date.finite 5) } : StepDate).due
        = (if (xbA.is_closed "submission" false).due = DISTANT_FUTURE then none
           else some (xbA.is_closed "submission" false).due)) :=
  ⟨by decide, step_dates_sentinel_presentation envA xbA _ (by decide)⟩

/-- C8: when resolving the download url for the submission file key
fails with a FileUploadError, the failure is absorbed: the context
carries the submission without an image url, and every other context
field equals what the same render produces over an environment whose
file store succeeds. -/
theorem file_url_failure_absorbed (env : Env)
    (g : String → Except FileUploadError String)
    (xb : XBlock) (student_id : String) (s : Submission) (k : String) (e : FileUploadError)
    (hs : si_raw_submission env xb student_id = some s)
    (hk : s.answer_file_key = some k)
    (him : s.image_url = none)
    (hfail : env.get_download_url k = Except.error e) :
    (get_student_info_path_and_context env xb student_id).context.submission = some s ∧
    ((get_student_info_path_and_context env xb student_id).context.submission.map
        Submission.image_url) = some none ∧
    (get_student_info_path_and_context env xb student_id).context.peer_assessments
      = (get_student_info_path_and_context { env with get_download_url := g } xb
          student_id).context.peer_assessments ∧
    (get_student_info_path_and_context env xb student_id).context.submitted_assessments
      = (get_student_info_path_and_context { env with get_download_url := g } xb
          student_id).context.submitted_assessments ∧
    (get_student_info_path_and_context env xb student_id).context.self_assessment
      = (get_student_info_path_and_context { env with get_download_url := g } xb
          student_id).context.self_assessment ∧
    (get_student_info_path_and_context env xb student_id).context.example_based_assessment
      = (get_student_info_path_and_context { env with get_download_url := g } xb
          student_id).context.example_based_assessment ∧
    (get_student_info_path_and_context env xb student_id).context.rubric_criteria
      = (get_student_info_path_and_context { env with get_download_url := g } xb
          student_id).context.rubric_criteria ∧
    (get_student_info_path_and_context env xb student_id).context.scores
      = (get_student_info_path_and_context { env with get_download_url := g } xb
          student_id).context.scores ∧
    (get_student_info_path_and_context env xb student_id).context.problem_closed
      = (get_student_info_path_and_context { env with get_download_url := g } xb
          student_id).context.problem_closed := by
  have hsub : (get_student_info_path_and_context env xb student_id).context.submission
      = some s := by
    simp [get_student_info_path_and_context, si_submission, hs, with_image_url, hk, hfail]
  refine ⟨hsub, ?_, rfl, rfl, rfl, rfl, rfl, rfl, rfl⟩
  rw [hsub]
  simp [him]

/-- C8 witness: over the sample environment whose file store fails, the
context at the sample block still carries all success-path fields, next
to an environment whose file store succeeds. -/
theorem file_url_failure_absorbed_witness :
    si_raw_submission envA xbA "s1"
      = some { uuid := "u1", answer_file_key := some "k1", image_url := none } ∧
    ({ uuid := "u1", answer_file_key := some "k1", image_url := none } : Submission).answer_file_key
      = some "k1" ∧
    ({ uuid := "u1", answer_file_key := some "k1", image_url := none } : Submission).image_url
      = none ∧
    envA.get_download_url "k1" = Except.error { msg := "storage down" } ∧
    ((get_student_info_path_and_context envA xbA "s1").context.submission
      = some { uuid := "u1", answer_file_key := some "k1", image_url := none } ∧
    ((get_student_info_path_and_context envA xbA "s1").context.submission.map
        Submission.image_url) = some none ∧
    (get_student_info_path_and_context envA xbA "s1").context.peer_assessments
      = (get_student_info_path_and_context
          { envA with get_download_url := fun _ => Except.ok "url1" } xbA
          "s1").context.peer_assessments ∧
    (get_student_info_path_and_context envA xbA "s1").context.submitted_assessments
      = (get_student_info_path_and_context
          { envA with get_download_url := fun _ => Except.ok "url1" } xbA
          "s1").context.submitted_assessments ∧
    (get_student_info_path_and_context envA xbA "s1").context.self_assessment
      = (get_student_info_path_and_context
          { envA with get_download_url := fun _ => Except.ok "url1" } xbA
          "s1").context.self_assessment ∧
    (get_student_info_path_and_context envA xbA "s1").context.example_based_assessment
      = (get_student_info_path_and_context
          { envA with get_download_url := fun _ => Except.ok "url1" } xbA
          "s1").context.example_based_assessment ∧
    (get_student_info_path_and_context envA xbA "s1").context.rubric_criteria
      = (get_student_info_path_and_context
          { envA with get_download_url := fun _ => Except.ok "url1" } xbA
          "s1").context.rubric_criteria ∧
    (get_student_info_path_and_context envA xbA "s1").context.scores
      = (get_student_info_path_and_context
          { envA with get_download_url := fun _ => Except.ok "url1" } xbA
          "s1").context.scores ∧
    (get_student_info_path_and_context envA xbA "s1").context.problem_closed
      = (get_student_info_path_and_context
          { envA with get_download_url := fun _ => Except.ok "url1" } xbA
          "s1").context.problem_closed) :=
  ⟨rfl, rfl, rfl, rfl,
    file_url_failure_absorbed envA (fun _ => Except.ok "url1") xbA "s1"
      { uuid := "u1", answer_file_key := some "k1", image_url := none }
      "k1" { msg := "storage down" } rfl rfl rfl rfl⟩

/-- C4: when the stored rubric criteria carry no total_value, the
student-info context backfills every criterion total_value with its max
score from the peer rubric max-score table exactly when some assessment
exists across the peer, self and example-based strategies; with no
assessment, every total_value stays unset. -/
theorem total_value_backfilled_iff_assessment_exists (env : Env) (xb : XBlock)
    (student_id : String)
    (hnone : ∀ c ∈ xb.rubric_criteria_with_labels, c.total_value = none) :
    (((get_student_info_path_and_context env xb student_id).context.peer_assessments ≠ [] ∨
      (get_student_info_path_and_context env xb student_id).context.self_assessment ≠ none ∨
      (get_student_info_path_and_context env xb student_id).context.example_based_assessment
        ≠ none) →
      ∀ c ∈ (get_student_info_path_and_context env xb student_id).context.rubric_criteria,
        c.total_value = some (env.get_rubric_max_scores
          ((get_student_info_path_and_context env xb student_id).context.submission.map
            Submission.uuid) c.name)) ∧
    (((get_student_info_path_and_context env xb student_id).context.peer_assessments = [] ∧
      (get_student_info_path_and_context env xb student_id).context.self_assessment = none ∧
      (get_student_info_path_and_context env xb student_id).context.example_based_assessment
        = none) →
      ∀ c ∈ (get_student_info_path_and_context env xb student_id).context.rubric_criteria,
        c.total_value = none) := by
  simp only [get_student_info_path_and_context]
  constructor
  · intro hex c hc
    have hany : si_any_assessment env xb student_id = true := by
      unfold si_any_assessment
      rcases hex with h | h | h
      · rcases h1 : si_peer_assessments env xb student_id with _ | ⟨a, l⟩
        · exact absurd h1 h
        · simp [h1]
      · rcases h2 : si_self_assessment env xb student_id with _ | v
        · exact absurd h2 h
        · simp [h2]
      · rcases h3 : si_example_based_assessment env xb student_id with _ | v
        · exact absurd h3 h
        · simp [h3]
    unfold si_rubric_criteria at hc
    rw [if_pos hany] at hc
    rcases List.mem_map.mp hc with ⟨c0, hc0, rfl⟩
    simp [si_submission_map_uuid]
  · rintro ⟨h1, h2, h3⟩ c hc
    have hany : si_any_assessment env xb student_id = false := by
      unfold si_any_assessment
      simp [h1, h2, h3]
    unfold si_rubric_criteria at hc
    rw [if_neg (by simp [hany])] at hc
    exact hnone c hc

/-- C4 witness: at the sample block one peer assessment exists, so every
context criterion gets total_value five, the sample max score. -/
theorem total_value_backfilled_iff_assessment_exists_witness :
    (∀ c ∈ xbA.rubric_criteria_with_labels, c.total_value = none) ∧
    ((((get_student_info_path_and_context envA xbA "s1").context.peer_assessments ≠ [] ∨
      (get_student_info_path_and_context envA xbA "s1").context.self_assessment ≠ none ∨
      (get_student_info_path_and_context envA xbA "s1").context.example_based_assessment
        ≠ none) →
      ∀ c ∈ (get_student_info_path_and_context envA xbA "s1").context.rubric_criteria,
        c.total_value = some (envA.get_rubric_max_scores
          ((get_student_info_path_and_context envA xbA "s1").context.submission.map
            Submission.uuid) c.name)) ∧
    (((get_student_info_path_and_context envA xbA "s1").context.peer_assessments = [] ∧
      (get_student_info_path_and_context envA xbA "s1").context.self_assessment = none ∧
      (get_student_info_path_and_context envA xbA "s1").context.example_based_assessment
        = none) →
      ∀ c ∈ (get_student_info_path_and_context envA xbA "s1").context.rubric_criteria,
        c.total_value = none)) :=
  ⟨by decide, total_value_backfilled_iff_assessment_exists envA xbA "s1" (by decide)⟩
